import Mathlib

set_option maxRecDepth 100000

/-!
Shallow embedding of the lhotse manifest-preparation recipes
(`lhotse/recipes/{safet,chime5,chime6,ami,ami2,ru_open_stt}.py`) and proofs
about the supervision-segment construction, skip/keep decisions, partitioning
and manifest-writing order they implement.

Conventions of the embedding:
* Python `float` seconds are modelled as exact rationals (`ℚ`);
* Python string-to-float parsing of timestamp fields is assumed already done:
  raw records carry the parsed numeric components;
* per-record processing is modelled as pure functions threading the
  `supervision_id` counter explicitly, mirroring the source loops.
-/

namespace Lhotse

/-- The fields of `lhotse.supervision.SupervisionSegment` that the recipes
set (id, recording_id, start, duration, channel, language, speaker, gender,
text).  `gender` is only passed by the AMI recipes, hence optional. -/
structure SupervisionSegment where
  id : String
  recording_id : String
  start : ℚ
  duration : ℚ
  channel : Nat
  language : String
  speaker : String
  gender : Option String := none
  text : String
deriving DecidableEq, Repr

/-- The part of `lhotse.audio.Recording` relevant to the recipes: an id and a
duration in seconds. -/
structure Recording where
  id : String
  duration : ℚ
deriving DecidableEq, Repr

/-- Python `str.zfill(n)`: left-pad with the character `0` to length `n`. -/
def zfill (s : String) (n : Nat) : String :=
  String.mk (List.replicate (n - s.length) '0') ++ s

/-- Python whitespace class `\s` (ASCII part): space, tab, newline, carriage
return, form feed, vertical tab. -/
def pyIsSpace (c : Char) : Bool :=
  c = ' ' ∨ c = '\t' ∨ c = '\n' ∨ c = '\r' ∨ c = '\x0c' ∨ c = '\x0b'

/-- Helper for `reSplitWs`: accumulate the current token (reversed in `acc`),
splitting at each whitespace run.  `fuel` bounds the recursion; it is always
called with `fuel ≥ l.length`, in which case it consumes all of `l`. -/
def reSplitWsGo (fuel : Nat) (acc : List Char) (l : List Char) : List String :=
  match fuel, l with
  | _, [] => [String.mk acc.reverse]
  | 0, l => [String.mk (acc.reverse ++ l)]
  | fuel + 1, c :: cs =>
    if pyIsSpace c then
      String.mk acc.reverse :: reSplitWsGo fuel [] (cs.dropWhile pyIsSpace)
    else
      reSplitWsGo fuel (c :: acc) cs

/-- Python `re.split(r'\s+', s)`: split on runs of whitespace; a leading or
trailing run contributes an empty token. -/
def reSplitWs (s : String) : List String :=
  reSplitWsGo s.length [] s.data

/-- Python `s.split()` (no argument): tokens separated by whitespace runs,
with no empty tokens. -/
def pySplit (s : String) : List String :=
  (reSplitWs s).filter (fun w => w ≠ "")

example : reSplitWs " a  b " = ["", "a", "b", ""] := by rfl
example : pySplit "  hello   world " = ["hello", "world"] := by rfl
example : zfill "17" 6 = "000017" := by rfl

/-- Left-to-right, non-overlapping replacement of the pattern `pat` by `repl`
(the semantics of Python `str.replace` and of `re.sub` with a literal
pattern).  `fuel` bounds the scan; it is always called with
`fuel = cs.length`, which consumes all of `cs`. -/
def pyReplaceGo (pat repl : List Char) : Nat → List Char → List Char
  | _, [] => []
  | 0, cs => cs
  | fuel + 1, c :: cs =>
    match (c :: cs).dropPrefix? pat with
    | some rest => repl ++ pyReplaceGo pat repl fuel rest
    | none => c :: pyReplaceGo pat repl fuel cs

/-- Python `s.replace(pat, repl)` for a non-empty literal `pat`. -/
def pyReplace (s pat repl : String) : String :=
  String.mk (pyReplaceGo pat.data repl.data s.data.length s.data)

/-- Python `s.upper()` (ASCII). -/
def pyUpper (s : String) : String := String.mk (s.data.map Char.toUpper)

/-- Python `s.lower()` (ASCII). -/
def pyLower (s : String) : String := String.mk (s.data.map Char.toLower)

/-- Python `s.strip()`: remove leading and trailing whitespace. -/
def pyStrip (s : String) : String :=
  String.mk (((s.data.dropWhile pyIsSpace).reverse.dropWhile pyIsSpace).reverse)

/-- Python `s.startswith(p)`. -/
def pyStartsWith (s p : String) : Bool := p.data.isPrefixOf s.data

/-- Python `s.endswith(p)`. -/
def pyEndsWith (s p : String) : Bool := p.data.reverse.isPrefixOf s.data.reverse

/-- Python `s[:-n]` (for `n ≤ len(s)`): drop the last `n` characters. -/
def pyDropRight (s : String) (n : Nat) : String :=
  String.mk (s.data.take (s.data.length - n))

example : pyReplace "a -- b -- c" " -- " " " = "a b c" := by rfl
example : pyStrip "  ab " = "ab" := by rfl
example : pyDropRight "abc:" 1 = "abc" := by rfl
example : pyStartsWith "background2" "background" = true := by rfl

/-! ### SAFE-T recipe (`lhotse/recipes/safet.py`) -/

/-- `safet.UNK`. -/
def UNK : String := "<UNK>"

/-- `safet.case_normalize`: both branches of the source return `w.upper()`. -/
def case_normalize (w : String) : String := pyUpper w

/-- Try to match `foreign\s+lang=` at the head of `cs`; on success return the
remaining characters after the match. -/
def flMatch (cs : List Char) : Option (List Char) :=
  match cs.dropPrefix? "foreign".data with
  | none => none
  | some rest =>
    if (rest.takeWhile pyIsSpace).isEmpty then none
    else (rest.dropWhile pyIsSpace).dropPrefix? "lang=".data

/-- Left-to-right, non-overlapping substitution of `foreign\s+lang=` by
`foreign_lang=` (the body of `re.sub(r'foreign\s+lang=', 'foreign_lang=', tmp)`).
`fuel` bounds the scan; every match consumes at least one character, so
`fuel = length` is enough. -/
def subFLGo (fuel : Nat) (cs : List Char) : List Char :=
  match fuel, cs with
  | _, [] => []
  | 0, cs => cs
  | fuel + 1, c :: cs =>
    match flMatch (c :: cs) with
    | some rest => "foreign_lang=".data ++ subFLGo fuel rest
    | none => c :: subFLGo fuel cs

/-- `re.sub(r'foreign\s+lang=', 'foreign_lang=', s)`. -/
def subForeignLang (s : String) : String :=
  String.mk (subFLGo s.data.length s.data)

/-- The substitution pipeline at the top of `safet.process_transcript`.
Note the source bug kept here faithfully: the second `re.sub` operates on
`transcript` again, so the `<extreme background>` removal is discarded. -/
def safetSubs (transcript : String) : String :=
  let _tmp0 := pyReplace transcript "<extreme background>" ""
  let tmp := pyReplace transcript "<background>" ""
  let tmp := subForeignLang tmp
  let tmp := pyReplace tmp "((" ""
  let tmp := pyReplace tmp "))" ""
  let tmp := String.mk (tmp.data.map
    (fun c => if c = '.' ∨ c = ',' ∨ c = '!' ∨ c = '?' then ' ' else c))
  let tmp := pyReplace tmp " -- " " "
  let tmp := if pyEndsWith tmp " --" then pyDropRight tmp 3 else tmp
  tmp

/-- The word loop of `safet.process_transcript`: strip and case-normalize each
word, skip empty words, keep lexicon words, replace the rest by `UNK`; the
Boolean is `if_only_unk` (true while no lexicon word has been seen). -/
def safetWordLoop (wordlist : List String) : List String → List String × Bool
  | [] => ([], true)
  | w :: ws =>
    let w := case_normalize (pyStrip w)
    let (rest, onlyUnk) := safetWordLoop wordlist ws
    if w = "" then (rest, onlyUnk)
    else if wordlist.contains w then (w :: rest, false)
    else (UNK :: rest, onlyUnk)

/-- Python `' '.join(ws)`. -/
def joinWords : List String → String
  | [] => ""
  | [w] => w
  | w :: ws => w ++ " " ++ joinWords ws

/-- `safet.process_transcript` with the module-global `WORDLIST` passed in
explicitly.  When `if_only_unk` remains true the source joins the empty
string, producing `''`. -/
def process_transcript (wordlist : List String) (transcript : String) : String :=
  let list_words := reSplitWs (safetSubs transcript)
  let (out_list_words, if_only_unk) := safetWordLoop wordlist list_words
  if if_only_unk then "" else joinWords out_list_words

example : process_transcript ["HELLO"] "hello, world!" = "HELLO <UNK>" := by rfl
example : process_transcript ["HELLO"] "bye bye" = "" := by rfl
example : process_transcript [] "" = "" := by rfl
example : subForeignLang "a foreign   lang=x" = "a foreign_lang=x" := by rfl

/-- One line of a SAFE-T `.tsv` transcript after Python-level field splitting
and float parsing: `line_parts[0]`, `line_parts[1]` parsed as rationals,
`line_parts[2]` (the raw speaker field, still carrying its trailing `:`),
and `line_parts[3:]`. -/
structure SafetLine where
  start_time : ℚ
  end_time : ℚ
  spk_field : String
  trans_words : List String
deriving DecidableEq, Repr

/-- The transcript text of a SAFE-T line after the per-part cleaning choice
(`dev` keeps the raw transcription, other parts run `process_transcript`). -/
def safetCleaned (part : String) (wordlist : List String) (line : SafetLine) : String :=
  let transcription := joinWords line.trans_words
  if part = "dev" then transcription else process_transcript wordlist transcription

/-- The per-line body of `safet.prepare_safet` (source lines 144-177):
compute `duration = end - start - 0.1`, drop lines whose cleaned transcript is
empty, drop lines whose speaker id (the speaker field without its final
character) starts with `background`, otherwise bump the counter and emit a
segment.  Returns the emitted segment (if any) and the updated counter. -/
def safetProcessLine (part : String) (wordlist : List String) (supervision_id : Nat)
    (recording_id : String) (line : SafetLine) : Option SupervisionSegment × Nat :=
  let duration := line.end_time - line.start_time - 1/10
  let speaker_id := pyDropRight line.spk_field 1
  let cleaned_transcrition := safetCleaned part wordlist line
  if cleaned_transcrition = "" then (none, supervision_id)
  else if pyStartsWith speaker_id "background" then (none, supervision_id)
  else
    let supervision_id := supervision_id + 1
    let speaker_id := zfill speaker_id 6
    let uttid := speaker_id ++ "_" ++ zfill (toString supervision_id) 6
    (some { id := uttid
            recording_id := recording_id
            start := line.start_time
            duration := duration
            channel := 0
            language := "English"
            speaker := speaker_id
            text := cleaned_transcrition }, supervision_id)

/-- All segments emitted by `prepare_safet` for the lines of one transcript
file, threading the `supervision_id` counter. -/
def safetProcessLines (part : String) (wordlist : List String) (recording_id : String) :
    Nat → List SafetLine → List SupervisionSegment
  | _, [] => []
  | n, line :: rest =>
    match safetProcessLine part wordlist n recording_id line with
    | (none, n') => safetProcessLines part wordlist recording_id n' rest
    | (some seg, n') => seg :: safetProcessLines part wordlist recording_id n' rest

example :
    (safetProcessLine "dev" [] 0 "r1"
      { start_time := 0, end_time := 1, spk_field := "042:", trans_words := ["hi"] }).1 =
    some { id := "000042_000001", recording_id := "r1", start := 0,
           duration := (1 : ℚ) - 0 - 1/10,
           channel := 0, language := "English", speaker := "000042", text := "hi" } := by
  rfl

/-! ### CHiME-5 recipe (`lhotse/recipes/chime5.py`) -/

/-- Python `pat in s` (substring containment). -/
def listContainsSub (pat : List Char) : List Char → Bool
  | [] => pat.isEmpty
  | c :: cs => pat.isPrefixOf (c :: cs) || listContainsSub pat cs

/-- Python `pat in s` on strings. -/
def pyContains (s pat : String) : Bool := listContainsSub pat.data s.data

example : pyContains "aa [redacted] bb" "[redacted]" = true := by rfl
example : pyContains "aa redacted bb" "[redacted]" = false := by rfl

/-- An `H:MM:SS.ss` timestamp after the `hms.split(':')` and Python `float`
parsing of each component performed by `hms_to_seconds`. -/
structure Hms where
  hours : ℚ
  minutes : ℚ
  seconds : ℚ
deriving DecidableEq, Repr

/-- `chime5.hms_to_seconds` / `chime6.hms_to_seconds`:
`float(hour) * 3600 + float(minute) * 60 + float(second)`. -/
def hms_to_seconds (t : Hms) : ℚ := t.hours * 3600 + t.minutes * 60 + t.seconds

/-- One entry of a CHiME-5 transcription JSON after timestamp parsing: the
`start_time` and `end_time` fields are dictionaries keyed by microphone type,
modelled as association lists. -/
structure Chime5Record where
  session_id : String
  speaker : String
  words : String
  ref : String
  start_time : List (String × Hms)
  end_time : List (String × Hms)
deriving DecidableEq, Repr

/-- The metacharacter removal and lowering applied to `x['words']` by
`chime5.get_supervision_details`, followed by whitespace re-joining. -/
def chime5CleanWords (words : String) : String :=
  let t := pyReplace words "\"" ""
  let t := pyReplace t "." ""
  let t := pyReplace t "?" ""
  let t := pyReplace t "," ""
  let t := pyReplace t ":" ""
  let t := pyReplace t ";" ""
  let t := pyReplace t "!" ""
  let t := pyLower t
  joinWords (pySplit t)

/-- `chime5.get_supervision_details`: looks up the timestamps for `mictype`;
a missing key raises `KeyError` in the source's `try` block, which returns the
all-`None` tuple, modelled by `none`. -/
def chime5GetSupervisionDetails (x : Chime5Record) (mictype : String)
    (supervision_id : Nat) (speaker_id session_id : String) :
    Option (ℚ × ℚ × String × ℚ × String) :=
  match x.start_time.lookup mictype, x.end_time.lookup mictype with
  | some st, some et =>
    let start_time := hms_to_seconds st
    let end_time := hms_to_seconds et
    let duration := end_time - start_time
    let transcription := chime5CleanWords x.words
    let uttid := speaker_id ++ "_" ++ session_id ++ "_" ++ zfill (toString supervision_id) 6
    some (end_time, start_time, uttid, duration, transcription)
  | _, _ => none

/-- `channel_list` of both `get_recording_id_list` functions. -/
def channel_list : List String := ["CH1", "CH2", "CH3", "CH4"]

/-- `chime5.get_recording_id_list`: the `original` (worn) type yields the
single id `<session>_<speaker>`; any other type yields one id per array
channel, `<session>_<mictype>.CH1` … `.CH4`. -/
def chime5GetRecordingIdList (mictype session_id speaker_id : String) : List String :=
  if mictype = "original" then [session_id ++ "_" ++ speaker_id]
  else channel_list.map (fun channel => session_id ++ "_" ++ mictype ++ "." ++ channel)

/-- The inner `for recording_id in recording_id_list` loop of
`chime5.prepare_chime`: bump the counter, fetch the details, skip on a failed
lookup or on `end_time < start_time`, otherwise emit a segment. -/
def chime5EmitForIds (x : Chime5Record) (mictype speaker_id session_id : String) :
    List String → Nat → List SupervisionSegment × Nat
  | [], n => ([], n)
  | recording_id :: rest, n =>
    let n1 := n + 1
    match chime5GetSupervisionDetails x mictype n1 speaker_id session_id with
    | none => chime5EmitForIds x mictype speaker_id session_id rest n1
    | some (end_time, start_time, uttid, duration, transcription) =>
      if end_time < start_time then
        chime5EmitForIds x mictype speaker_id session_id rest n1
      else
        let seg : SupervisionSegment :=
          { id := uttid
            recording_id := recording_id
            start := start_time
            duration := duration
            channel := 0
            language := "English"
            speaker := speaker_id
            text := transcription }
        let (segs, n2) := chime5EmitForIds x mictype speaker_id session_id rest n1
        (seg :: segs, n2)

/-- The body of the `for microphonetype in microphonetype_list` loop of
`chime5.prepare_chime` for one raw record: records containing `[redacted]`
are skipped wholesale; otherwise the microphone type is resolved and the
candidate recording ids are processed. -/
def chime5ProcessMic (x : Chime5Record) (microphonetype : String) (n : Nat) :
    List SupervisionSegment × Nat :=
  if pyContains x.words "[redacted]" then ([], n)
  else
    let session_id := x.session_id
    let speaker_id := x.speaker
    let mictype :=
      if microphonetype = "worn" then "original"
      else if microphonetype = "ref" then x.ref
      else microphonetype
    chime5EmitForIds x mictype speaker_id session_id
      (chime5GetRecordingIdList mictype session_id speaker_id) n

/-- All segments produced by `chime5.prepare_chime` from one raw record,
over a microphone-type list. -/
def chime5ProcessRecord (x : Chime5Record) :
    List String → Nat → List SupervisionSegment × Nat
  | [], n => ([], n)
  | mic :: mics, n =>
    let (segs, n1) := chime5ProcessMic x mic n
    let (rest, n2) := chime5ProcessRecord x mics n1
    (segs ++ rest, n2)

/-- `microphonetype_list` of `chime5.prepare_chime`. -/
def chime5MicrophonetypeList : List String :=
  ["worn", "U01", "U02", "U03", "U04", "U05", "U06"]

/-! ### CHiME-6 recipe (`lhotse/recipes/chime6.py`) -/

/-- One entry of a CHiME-6 transcription JSON after timestamp parsing:
`start_time` and `end_time` are plain `H:MM:SS.ss` strings. -/
structure Chime6Record where
  session_id : String
  speaker : String
  words : String
  ref : String
  start_time : Hms
  end_time : Hms
deriving DecidableEq, Repr

/-- `chime6.Session2Microphones`. -/
def Session2Microphones : List (String × List String) :=
  [("S01", ["U01", "U02", "U04", "U05", "U06"]),
   ("S05", ["U01", "U02", "U05", "U06"]),
   ("S09", ["U01", "U02", "U03", "U04", "U06"]),
   ("S22", ["U01", "U02", "U04", "U05", "U06"])]

/-- `chime6.get_recording_id_list`: session `S12` is always skipped (returns
no ids); `original` yields the single id `<session>_<speaker>`; for array
types, sessions listed in `Session2Microphones` fan out to the four channel
ids only when the microphone type is in their list (otherwise no ids), while
unlisted sessions always fan out to the four channel ids. -/
def chime6GetRecordingIdList (mictype session_id speaker_id : String) : List String :=
  if session_id = "S12" then []
  else if mictype = "original" then [session_id ++ "_" ++ speaker_id]
  else
    match Session2Microphones.lookup session_id with
    | some mics =>
      if mictype ∈ mics then
        channel_list.map (fun channel => session_id ++ "_" ++ mictype ++ "." ++ channel)
      else []
    | none =>
      channel_list.map (fun channel => session_id ++ "_" ++ mictype ++ "." ++ channel)

/-- The character class of the source pattern `'[inaudible (\d+)]'` — the
brackets make it a class, so it matches any single one of these characters. -/
def chime6InaudibleClass (c : Char) : Bool :=
  c = 'i' ∨ c = 'n' ∨ c = 'a' ∨ c = 'u' ∨ c = 'd' ∨ c = 'b' ∨ c = 'l' ∨
  c = 'e' ∨ c = ' ' ∨ c = '(' ∨ c = ')' ∨ c = '+' ∨ c.isDigit

/-- `re.sub('[inaudible (\d+)]', '[inaudible]', word)`: every character in
the class is replaced by the string `[inaudible]`. -/
def chime6WordSub (w : String) : String :=
  String.mk (w.data.foldr
    (fun c acc => (if chime6InaudibleClass c then "[inaudible]".data else [c]) ++ acc) [])

/-- The per-word transformation and keep decision of the filtering loop in
`chime6.get_supervision_details`. -/
def chime6FilterWord (word : String) : Option String :=
  let word := chime6WordSub word
  let word := if word = "[inaudible]" ∨ word = "[laughs]" ∨ word = "[noise]"
              then "<unk>" else word
  let word := if word = "mhm" ∨ word = "mm" ∨ word = "mmm" ∨ word = "hmm"
              then "<unk>" else word
  let word := pyStrip word
  if word = "" then none else some word

/-- `chime6.get_supervision_details` (the `try` body; with the record fields
already present and parsed, no exception can occur — note the source's
`except` branch is itself inconsistent, returning five values to a
four-variable unpacking).  Returns `(end_time, start_time, duration,
filtered_transcription)`. -/
def chime6GetSupervisionDetails (x : Chime6Record) : ℚ × ℚ × ℚ × String :=
  let start_time := hms_to_seconds x.start_time
  let end_time := hms_to_seconds x.end_time
  let duration := end_time - start_time
  let transcription := pyReplace x.words "\"" ""
  let transcription := pyReplace transcription "." ""
  let transcription := pyReplace transcription "?" ""
  let transcription := pyReplace transcription "," ""
  let transcription := pyReplace transcription ":" ""
  let transcription := pyReplace transcription ";" ""
  let transcription := pyLower (pyReplace transcription "!" "")
  let transcription := joinWords (pySplit transcription)
  let transcriptionWords := pySplit transcription
  let filtered_transcription := transcriptionWords.filterMap chime6FilterWord
  (end_time, start_time, duration, joinWords filtered_transcription)

/-- The per-recording-id body of `chime6.prepare_chime`: skip when
`end_time <= start_time`; the `train` part emits two channel copies, other
parts one. -/
def chime6EmitForId (part : String) (x : Chime6Record) (recording_id : String)
    (n : Nat) : List SupervisionSegment × Nat :=
  let (end_time, start_time, duration, transcription) := chime6GetSupervisionDetails x
  if end_time ≤ start_time then ([], n)
  else
    let mkSeg := fun (supId : Nat) (channel : Nat) =>
      ({ id := x.speaker ++ "_" ++ x.session_id ++ "_" ++ zfill (toString supId) 6
         recording_id := recording_id
         start := start_time
         duration := duration
         channel := channel
         language := "English"
         speaker := x.speaker
         text := transcription } : SupervisionSegment)
    if part = "train" then ([mkSeg (n + 1) 0, mkSeg (n + 2) 1], n + 2)
    else ([mkSeg (n + 1) 0], n + 1)

/-- Fold of `chime6EmitForId` over the candidate recording ids. -/
def chime6EmitForIds (part : String) (x : Chime6Record) :
    List String → Nat → List SupervisionSegment × Nat
  | [], n => ([], n)
  | recording_id :: rest, n =>
    let (segs, n1) := chime6EmitForId part x recording_id n
    let (more, n2) := chime6EmitForIds part x rest n1
    (segs ++ more, n2)

/-- The body of the microphone-type loop of `chime6.prepare_chime` for one
raw record. -/
def chime6ProcessMic (part : String) (x : Chime6Record) (microphonetype : String)
    (n : Nat) : List SupervisionSegment × Nat :=
  if pyContains x.words "[redacted]" then ([], n)
  else
    let mictype :=
      if microphonetype = "worn" then "original"
      else if microphonetype = "ref" then x.ref
      else microphonetype
    chime6EmitForIds part x
      (chime6GetRecordingIdList mictype x.session_id x.speaker) n

/-- `chime6.get_microphonetype_list`: both branches yield `['worn']`. -/
def chime6GetMicrophonetypeList (dataset_part : String) : List String :=
  if dataset_part = "dev" then ["worn"] else ["worn"]

/-- All segments produced by `chime6.prepare_chime` from one raw record. -/
def chime6ProcessRecord (part : String) (x : Chime6Record) :
    List String → Nat → List SupervisionSegment × Nat
  | [], n => ([], n)
  | mic :: mics, n =>
    let (segs, n1) := chime6ProcessMic part x mic n
    let (rest, n2) := chime6ProcessRecord part x mics n1
    (segs ++ rest, n2)

/-! ### AMI recipes (`lhotse/recipes/ami.py`, `lhotse/recipes/ami2.py`) -/

/-- `ami.AmiSegmentAnnotation` / `ami2.AmiSegmentAnnotation` (identical
NamedTuples). -/
structure AmiSegAnnot where
  text : String
  speaker : String
  gender : String
  begin_time : ℚ
  end_time : ℚ
deriving DecidableEq, Repr

/-- The per-annotation body of the supervision loop in `ami.prepare_ami`
(source lines 129-152): compute `duration = end - begin`; drop the annotation
when `end_time > recording.duration` (log + skip, never clip); keep it only
when `duration > 0`. -/
def amiProcessAnn (recording : Recording) (seg_idx : Nat) (seg_info : AmiSegAnnot) :
    Option SupervisionSegment :=
  let duration := seg_info.end_time - seg_info.begin_time
  if seg_info.end_time > recording.duration then none
  else if duration > 0 then
    some { id := recording.id ++ "-" ++ toString seg_idx
           recording_id := recording.id
           start := seg_info.begin_time
           duration := duration
           channel := 0
           language := "English"
           speaker := seg_info.speaker
           gender := some seg_info.gender
           text := seg_info.text }
  else none

/-- The per-annotation body of the supervision loop in `ami2.prepare_ami`
(source lines 309-332): same skip/keep decisions as `amiProcessAnn`, with the
id format `<sessionid>.Headset-<channel>-<seg_idx>`. -/
def ami2ProcessAnn (recording : Recording) (sessionid : String) (channel : Nat)
    (seg_idx : Nat) (seg_info : AmiSegAnnot) : Option SupervisionSegment :=
  let duration := seg_info.end_time - seg_info.begin_time
  if seg_info.end_time > recording.duration then none
  else if duration > 0 then
    some { id := sessionid ++ ".Headset-" ++ toString channel ++ "-" ++ toString seg_idx
           recording_id := recording.id
           start := seg_info.begin_time
           duration := duration
           channel := 0
           language := "English"
           speaker := seg_info.speaker
           gender := some seg_info.gender
           text := seg_info.text }
  else none

/-- All segments produced by `ami.prepare_ami` for one recording from its
annotation list (`for seg_idx, seg_info in enumerate(annotation)`). -/
def amiSegmentsForRecording (recording : Recording) (anns : List AmiSegAnnot) :
    List SupervisionSegment :=
  anns.enum.filterMap (fun p => amiProcessAnn recording p.1 p.2)

/-- All segments produced by `ami2.prepare_ami` for one recording from its
annotation list (`for seg_idx, seg_info in enumerate(annotation)`, source
lines 309-332). -/
def ami2SegmentsForRecording (recording : Recording) (sessionid : String)
    (channel : Nat) (anns : List AmiSegAnnot) : List SupervisionSegment :=
  anns.enum.filterMap (fun p => ami2ProcessAnn recording sessionid channel p.1 p.2)

/-- `PARTITIONS['full-corpus-asr']['train']` of `ami.py`. Note the element
`"IN1012IN1013"`: the source list has a missing comma between `'IN1012'` and
`'IN1013'`, which Python concatenates into one string literal. -/
def amiTrainList : List String :=
  ["EN2001a", "EN2001b", "EN2001d", "EN2001e", "EN2003a", "EN2004a", "EN2005a", "EN2006a",
   "EN2006b", "EN2009b", "EN2009c", "EN2009d", "ES2002a", "ES2002b", "ES2002c", "ES2002d",
   "ES2003a", "ES2003b", "ES2003c", "ES2003d", "ES2005a", "ES2005b", "ES2005c", "ES2005d",
   "ES2006a", "ES2006b", "ES2006c", "ES2006d", "ES2007a", "ES2007b", "ES2007c", "ES2007d",
   "ES2008a", "ES2008b", "ES2008c", "ES2008d", "ES2009a", "ES2009b", "ES2009c", "ES2009d",
   "ES2010a", "ES2010b", "ES2010c", "ES2010d", "ES2012a", "ES2012b", "ES2012c", "ES2012d",
   "ES2013a", "ES2013b", "ES2013c", "ES2013d", "ES2014a", "ES2014b", "ES2014c", "ES2014d",
   "ES2015a", "ES2015b", "ES2015c", "ES2015d", "ES2016a", "ES2016b", "ES2016c", "ES2016d",
   "IB4005", "IN1001", "IN1002", "IN1005", "IN1007", "IN1008", "IN1009", "IN1012IN1013",
   "IN1014", "IN1016", "IS1000a", "IS1000b", "IS1000c", "IS1000d", "IS1001a", "IS1001b",
   "IS1001c", "IS1001d", "IS1002b", "IS1002c", "IS1002d", "IS1003a", "IS1003b", "IS1003c",
   "IS1003d", "IS1004a", "IS1004b", "IS1004c", "IS1004d", "IS1005a", "IS1005b", "IS1005c",
   "IS1006a", "IS1006b", "IS1006c", "IS1006d", "IS1007a", "IS1007b", "IS1007c", "IS1007d",
   "TS3005a", "TS3005b", "TS3005c", "TS3005d", "TS3006a", "TS3006b", "TS3006c", "TS3006d",
   "TS3007a", "TS3007b", "TS3007c", "TS3007d", "TS3008a", "TS3008b", "TS3008c", "TS3008d",
   "TS3009a", "TS3009b", "TS3009c", "TS3009d", "TS3010a", "TS3010b", "TS3010c", "TS3010d",
   "TS3011a", "TS3011b", "TS3011c", "TS3011d", "TS3012a", "TS3012b", "TS3012c", "TS3012d"]

/-- `PARTITIONS['full-corpus-asr']['dev']` of `ami.py`. -/
def amiDevList : List String :=
  ["ES2011a", "ES2011b", "ES2011c", "ES2011d", "IB4001", "IB4002", "IB4003", "IB4004",
   "IB4010", "IB4011", "IS1008a", "IS1008b", "IS1008c", "IS1008d", "TS3004a", "TS3004b",
   "TS3004c", "TS3004d"]

/-- `PARTITIONS['full-corpus-asr']['test']` of `ami.py`. -/
def amiTestList : List String :=
  ["EN2002a", "EN2002b", "EN2002c", "EN2002d", "ES2004a", "ES2004b", "ES2004c", "ES2004d",
   "IS1009a", "IS1009b", "IS1009c", "IS1009d", "TS3003a", "TS3003b", "TS3003c", "TS3003d"]

/-- `dataset_parts[part]` for the `full-corpus-asr` scheme of `ami.py`. -/
def amiPartList (part : String) : List String :=
  if part = "train" then amiTrainList
  else if part = "dev" then amiDevList
  else if part = "test" then amiTestList
  else []

/-- Python `id.split('.')[0]`: the prefix of the id before the first dot
(the meeting id of an AMI recording id). -/
def pyIdPart (id : String) : String :=
  String.mk (id.data.takeWhile (fun c => c ≠ '.'))

/-- The per-partition recording filter of `ami.prepare_ami`:
`recording_set.filter(lambda x: x.id.split('.')[0] in dataset_parts[part])`. -/
def amiFilterRecordings (plist : List String) (recs : List Recording) : List Recording :=
  recs.filter (fun x => plist.contains (pyIdPart x.id))

/-- `ami2.MEETINGS`. -/
def MEETINGS : List (String × List String) :=
  [("EN2001", ["EN2001a", "EN2001b", "EN2001d", "EN2001e"]),
   ("EN2002", ["EN2002a", "EN2002b", "EN2002c", "EN2002d"]),
   ("EN2003", ["EN2003a"]),
   ("EN2004", ["EN2004a"]),
   ("EN2005", ["EN2005a"]),
   ("EN2006", ["EN2006a", "EN2006b"]),
   ("EN2009", ["EN2009b", "EN2009c", "EN2009d"]),
   ("ES2002", ["ES2002a", "ES2002b", "ES2002c", "ES2002d"]),
   ("ES2003", ["ES2003a", "ES2003b", "ES2003c", "ES2003d"]),
   ("ES2004", ["ES2004a", "ES2004b", "ES2004c", "ES2004d"]),
   ("ES2005", ["ES2005a", "ES2005b", "ES2005c", "ES2005d"]),
   ("ES2006", ["ES2006a", "ES2006b", "ES2006c", "ES2006d"]),
   ("ES2007", ["ES2007a", "ES2007b", "ES2007c", "ES2007d"]),
   ("ES2008", ["ES2008a", "ES2008b", "ES2008c", "ES2008d"]),
   ("ES2009", ["ES2009a", "ES2009b", "ES2009c", "ES2009d"]),
   ("ES2010", ["ES2010a", "ES2010b", "ES2010c", "ES2010d"]),
   ("ES2011", ["ES2011a", "ES2011b", "ES2011c", "ES2011d"]),
   ("ES2012", ["ES2012a", "ES2012b", "ES2012c", "ES2012d"]),
   ("ES2013", ["ES2013a", "ES2013b", "ES2013c", "ES2013d"]),
   ("ES2014", ["ES2014a", "ES2014b", "ES2014c", "ES2014d"]),
   ("ES2015", ["ES2015a", "ES2015b", "ES2015c", "ES2015d"]),
   ("ES2016", ["ES2016a", "ES2016b", "ES2016c", "ES2016d"]),
   ("IB4001", ["IB4001"]),
   ("IB4002", ["IB4002"]),
   ("IB4003", ["IB4003"]),
   ("IB4004", ["IB4004"]),
   ("IB4005", ["IB4005"]),
   ("IB4010", ["IB4010"]),
   ("IB4011", ["IB4011"]),
   ("IN1001", ["IN1001"]),
   ("IN1002", ["IN1002"]),
   ("IN1005", ["IN1005"]),
   ("IN1007", ["IN1007"]),
   ("IN1008", ["IN1008"]),
   ("IN1009", ["IN1009"]),
   ("IN1012", ["IN1012"]),
   ("IN1013", ["IN1013"]),
   ("IN1014", ["IN1014"]),
   ("IN1016", ["IN1016"]),
   ("IS1000", ["IS1000a", "IS1000b", "IS1000c", "IS1000d"]),
   ("IS1001", ["IS1001a", "IS1001b", "IS1001c", "IS1001d"]),
   ("IS1002", ["IS1002b", "IS1002c", "IS1002d"]),
   ("IS1003", ["IS1003a", "IS1003b", "IS1003c", "IS1003d"]),
   ("IS1004", ["IS1004a", "IS1004b", "IS1004c", "IS1004d"]),
   ("IS1005", ["IS1005a", "IS1005b", "IS1005c"]),
   ("IS1006", ["IS1006a", "IS1006b", "IS1006c", "IS1006d"]),
   ("IS1007", ["IS1007a", "IS1007b", "IS1007c", "IS1007d"]),
   ("IS1008", ["IS1008a", "IS1008b", "IS1008c", "IS1008d"]),
   ("IS1009", ["IS1009a", "IS1009b", "IS1009c", "IS1009d"]),
   ("TS3003", ["TS3003a", "TS3003b", "TS3003c", "TS3003d"]),
   ("TS3004", ["TS3004a", "TS3004b", "TS3004c", "TS3004d"]),
   ("TS3005", ["TS3005a", "TS3005b", "TS3005c", "TS3005d"]),
   ("TS3006", ["TS3006a", "TS3006b", "TS3006c", "TS3006d"]),
   ("TS3007", ["TS3007a", "TS3007b", "TS3007c", "TS3007d"]),
   ("TS3008", ["TS3008a", "TS3008b", "TS3008c", "TS3008d"]),
   ("TS3009", ["TS3009a", "TS3009b", "TS3009c", "TS3009d"]),
   ("TS3010", ["TS3010a", "TS3010b", "TS3010c", "TS3010d"]),
   ("TS3011", ["TS3011a", "TS3011b", "TS3011c", "TS3011d"]),
   ("TS3012", ["TS3012a", "TS3012b", "TS3012c", "TS3012d"])]

/-- The session lists in the `train` comprehension of
`ami2.PARTITIONS['full-corpus-asr']`. -/
def ami2TrainSessions : List String :=
  ["ES2002", "ES2005", "ES2006", "ES2007", "ES2008", "ES2009", "ES2010", "ES2012", "ES2013",
   "ES2015", "ES2016", "IS1000", "IS1001", "IS1002", "IS1003", "IS1004", "IS1005", "IS1006",
   "IS1007", "TS3005", "TS3008", "TS3009", "TS3010", "TS3011", "TS3012", "EN2001", "EN2003",
   "EN2004", "EN2005", "EN2006", "EN2009", "IN1001", "IN1002", "IN1005", "IN1007", "IN1008",
   "IN1009", "IN1012", "IN1013", "IN1014", "IN1016", "ES2014", "TS3007", "ES2003", "TS3006"]

/-- The session lists in the `dev` comprehension of
`ami2.PARTITIONS['full-corpus-asr']`. -/
def ami2DevSessions : List String :=
  ["ES2011", "IS1008", "TS3004", "IB4001", "IB4002", "IB4003", "IB4004", "IB4010", "IB4011"]

/-- The session lists in the `test` comprehension of
`ami2.PARTITIONS['full-corpus-asr']`. -/
def ami2TestSessions : List String :=
  ["ES2004", "IS1009", "TS3003", "EN2002"]

/-- The comprehension `[meeting for session in sessions for meeting in
MEETINGS[session]]` (every session key is present in `MEETINGS`). -/
def ami2MeetingsOf (sessions : List String) : List String :=
  sessions.flatMap (fun session => (MEETINGS.lookup session).getD [])

/-- `PARTITIONS['full-corpus-asr']` of `ami2.py`. -/
def ami2PartList (part : String) : List String :=
  if part = "train" then ami2MeetingsOf ami2TrainSessions
  else if part = "dev" then ami2MeetingsOf ami2DevSessions
  else if part = "test" then ami2MeetingsOf ami2TestSessions
  else []

/-! ### Per-partition write/validate order and `ru_open_stt`
(`lhotse/recipes/{safet,chime5,ami,ru_open_stt}.py`)

`validate_recordings_and_supervisions` is not part of the recipe sources.
Modelled from the spec: validation "must fail loudly with
`ManifestIntegrityError`" when a partition's referential integrity fails, so
its outcome for a partition is abstracted by a Boolean `valOk`, and a failed
validation raises, aborting the remaining statements of the recipe. -/

/-- An observable step of a recipe's per-partition tail: a validation call
(with its outcome) or a manifest file write. -/
inductive ManifestEvent where
  | validate (ok : Bool)
  | write (file : String)
deriving DecidableEq, Repr

/-- Whether an event is a file write. -/
def ManifestEvent.isWrite : ManifestEvent → Bool
  | .write _ => true
  | _ => false

/-- The per-partition tail of `safet.prepare_safet` (source lines 180-183):
validate, then (if an output directory was given) write supervisions and
recordings.  A failed validation raises before any write. -/
def safetPartitionTrace (part : String) (valOk hasOutputDir : Bool) : List ManifestEvent :=
  if valOk then
    .validate true ::
      (if hasOutputDir then
        [.write ("supervisions_safet_" ++ part ++ ".json"),
         .write ("recordings_safet_" ++ part ++ ".json")]
      else [])
  else [.validate false]

/-- The per-partition tail of `chime5.prepare_chime` (source lines 116-119):
validate, then write. -/
def chime5PartitionTrace (part : String) (valOk hasOutputDir : Bool) : List ManifestEvent :=
  if valOk then
    .validate true ::
      (if hasOutputDir then
        [.write ("supervisions_" ++ part ++ ".json"),
         .write ("recordings_" ++ part ++ ".json")]
      else [])
  else [.validate false]

/-- The per-partition tail of `ami.prepare_ami` (source lines 165-168): both
files are written first, and per-partition validation only runs afterwards. -/
def amiPartitionTrace (part : String) (valOk hasOutputDir : Bool) : List ManifestEvent :=
  (if hasOutputDir then
    [.write ("recordings_" ++ part ++ ".json"),
     .write ("supervisions_" ++ part ++ ".json")]
  else []) ++ [.validate valOk]

/-- The per-partition tail of `ru_open_stt.prepare_ru_open_stt` (source lines
71-74): the validation call is commented out in the source, so both files are
written unconditionally. -/
def ruOpenSttPartitionTrace (part : String) (hasOutputDir : Bool) : List ManifestEvent :=
  if hasOutputDir then
    [.write ("supervisions_" ++ part ++ ".json"),
     .write ("recordings_" ++ part ++ ".json")]
  else []

/-! ## Theorems -/

/-- **C3**: an annotated segment whose `end_time` exceeds the referenced
recording's duration is dropped entirely by the reconciliation step of both
AMI recipes (`ami.prepare_ami` and `ami2.prepare_ami`): the annotation maps
to no supervision segment at all; in particular its end is never clipped to
the recording duration. -/
theorem c3_overrun_segments_dropped (recording : Recording) (sessionid : String)
    (channel seg_idx : Nat) (seg_info : AmiSegAnnot)
    (h : seg_info.end_time > recording.duration) :
    amiProcessAnn recording seg_idx seg_info = none ∧
    ami2ProcessAnn recording sessionid channel seg_idx seg_info = none := by
  constructor
  · unfold amiProcessAnn
    simp [h]
  · unfold ami2ProcessAnn
    simp [h]

/-- Witness for C3, the spec's scenario: recording duration `30.0`, raw
record `start=29.9, end=30.2`. -/
theorem c3_overrun_segments_dropped_witness :
    ((30 : ℚ) < 302/10) ∧
    amiProcessAnn ⟨"sessionA_mic1", 30⟩ 0 ⟨"some text", "A", "f", 299/10, 302/10⟩ = none ∧
    ami2ProcessAnn ⟨"sessionA_mic1", 30⟩ "sessionA" 1 0
      ⟨"some text", "A", "f", 299/10, 302/10⟩ = none :=
  have H := c3_overrun_segments_dropped ⟨"sessionA_mic1", 30⟩ "sessionA" 1 0
    ⟨"some text", "A", "f", 299/10, 302/10⟩ (by norm_num)
  ⟨by norm_num, H.1, H.2⟩

/-- **C6**: a SAFE-T transcript line whose speaker id (the speaker field with
its trailing character removed) starts with `background` never produces a
supervision segment, whatever the dataset part, word list, counter state or
recording id. -/
theorem c6_background_speaker_dropped (part : String) (wordlist : List String)
    (supervision_id : Nat) (recording_id : String) (line : SafetLine)
    (h : pyStartsWith (pyDropRight line.spk_field 1) "background" = true) :
    (safetProcessLine part wordlist supervision_id recording_id line).1 = none := by
  unfold safetProcessLine
  by_cases h1 : safetCleaned part wordlist line = "" <;> simp [h1, h]

/-- Witness for C6, the spec's scenario: the line
`"10.0 10.05 background_noise1: some text"`. -/
theorem c6_background_speaker_dropped_witness :
    pyStartsWith (pyDropRight "background_noise1:" 1) "background" = true ∧
    (safetProcessLine "dev" [] 0 "r1"
      ⟨10, 201/20, "background_noise1:", ["some", "text"]⟩).1 = none :=
  ⟨by decide, c6_background_speaker_dropped "dev" [] 0 "r1"
    ⟨10, 201/20, "background_noise1:", ["some", "text"]⟩ (by decide)⟩

/-- **C9**: every SAFE-T line that yields a supervision segment yields it
with `start` equal to the line's start time unchanged and `duration` equal to
`end_time - start_time - 0.1` (the fixed 0.1 s guard of the source). -/
theorem c9_safet_duration_guard (part : String) (wordlist : List String)
    (supervision_id : Nat) (recording_id : String) (line : SafetLine)
    (seg : SupervisionSegment)
    (h : (safetProcessLine part wordlist supervision_id recording_id line).1 = some seg) :
    seg.start = line.start_time ∧
    seg.duration = line.end_time - line.start_time - 1/10 := by
  unfold safetProcessLine at h
  by_cases h1 : safetCleaned part wordlist line = ""
  · simp [h1] at h
  · by_cases h2 : pyStartsWith (pyDropRight line.spk_field 1) "background" = true
    · simp [h1, h2] at h
    · simp [h1, h2] at h
      rw [← h]
      refine ⟨rfl, ?_⟩
      norm_num

/-- Witness for C9 at the line `(start=0, end=1, speaker "042:", text "hi")`
in the `dev` part. -/
theorem c9_safet_duration_guard_witness :
    ((safetProcessLine "dev" [] 0 "r1" ⟨0, 1, "042:", ["hi"]⟩).1 =
      some { id := "000042_000001", recording_id := "r1", start := 0,
             duration := (1 : ℚ) - 0 - 1/10, channel := 0, language := "English",
             speaker := "000042", text := "hi" }) ∧
    (0 : ℚ) = 0 ∧ (1 : ℚ) - 0 - 1/10 = 1 - 0 - 1/10 :=
  ⟨rfl, c9_safet_duration_guard "dev" [] 0 "r1" ⟨0, 1, "042:", ["hi"]⟩ _ rfl⟩

/-- **C10**: a CHiME-5 or CHiME-6 raw record whose `words` field contains
the substring `[redacted]` produces no supervision segment for any
microphone type (and leaves the id counter untouched). -/
theorem c10_redacted_record_dropped (part : String) (mics5 mics6 : List String)
    (n5 n6 : Nat) (x5 : Chime5Record) (x6 : Chime6Record)
    (h5 : pyContains x5.words "[redacted]" = true)
    (h6 : pyContains x6.words "[redacted]" = true) :
    chime5ProcessRecord x5 mics5 n5 = ([], n5) ∧
    chime6ProcessRecord part x6 mics6 n6 = ([], n6) := by
  constructor
  · induction mics5 generalizing n5 with
    | nil => rfl
    | cons m ms ih => simp [chime5ProcessRecord, chime5ProcessMic, h5, ih]
  · induction mics6 generalizing n6 with
    | nil => rfl
    | cons m ms ih => simp [chime6ProcessRecord, chime6ProcessMic, h6, ih]

/-- Witness for C10 at a concrete record in each of the two formats, over
the recipes' actual microphone-type lists. -/
theorem c10_redacted_record_dropped_witness :
    pyContains "ok [redacted] ok" "[redacted]" = true ∧
    chime5ProcessRecord ⟨"S02", "P05", "ok [redacted] ok", "", [], []⟩
      chime5MicrophonetypeList 0 = ([], 0) ∧
    chime6ProcessRecord "train" ⟨"S03", "P09", "ok [redacted] ok", "", ⟨0, 0, 1⟩, ⟨0, 0, 2⟩⟩
      (chime6GetMicrophonetypeList "train") 0 = ([], 0) :=
  have H := c10_redacted_record_dropped "train" chime5MicrophonetypeList
    (chime6GetMicrophonetypeList "train") 0 0
    ⟨"S02", "P05", "ok [redacted] ok", "", [], []⟩
    ⟨"S03", "P09", "ok [redacted] ok", "", ⟨0, 0, 1⟩, ⟨0, 0, 2⟩⟩
    (by decide) (by decide)
  ⟨by decide, H.1, H.2⟩

/-- Helper for C2: when every microphone-type timestamp lookup of a CHiME-5
record yields `end < start`, the inner recording-id loop emits nothing. -/
theorem chime5EmitForIds_nil_of_lt (x : Chime5Record) (mt spk sess : String)
    (h : ∀ st et, x.start_time.lookup mt = some st → x.end_time.lookup mt = some et →
      hms_to_seconds et < hms_to_seconds st) :
    ∀ ids n, (chime5EmitForIds x mt spk sess ids n).1 = [] := by
  intro ids
  induction ids with
  | nil => intro n; rfl
  | cons rid rest ih =>
    intro n
    unfold chime5EmitForIds chime5GetSupervisionDetails
    cases hst : x.start_time.lookup mt with
    | none => simp [hst, ih]
    | some st =>
      cases het : x.end_time.lookup mt with
      | none => simp [hst, het, ih]
      | some et => simp [hst, het, h st et hst het, ih]

/-- Helper for C2: a CHiME-6 record with `end_time <= start_time` emits
nothing for any recording id. -/
theorem chime6EmitForIds_nil_of_le (part : String) (x : Chime6Record)
    (h : hms_to_seconds x.end_time ≤ hms_to_seconds x.start_time) :
    ∀ ids n, (chime6EmitForIds part x ids n).1 = [] := by
  intro ids
  induction ids with
  | nil => intro n; rfl
  | cons rid rest ih =>
    intro n
    unfold chime6EmitForIds chime6EmitForId chime6GetSupervisionDetails
    simp [h, ih]

/-- Counterexample to **C2** as stated: a CHiME-5 record whose computed end
time equals its start time (hence `end_time <= start_time`) still produces a
supervision segment, because `chime5.prepare_chime` skips only on the strict
comparison `end_time < start_time`. -/
theorem c2_counterexample :
    (hms_to_seconds ⟨0, 0, 5⟩ ≤ hms_to_seconds ⟨0, 0, 5⟩) ∧
    (chime5ProcessRecord
        ⟨"S02", "P05", "", "", [("original", ⟨0, 0, 5⟩)], [("original", ⟨0, 0, 5⟩)]⟩
        chime5MicrophonetypeList 0).1 ≠ [] := by
  refine ⟨le_refl _, ?_⟩
  simp [chime5ProcessRecord, chime5ProcessMic, chime5MicrophonetypeList,
    chime5EmitForIds, chime5GetSupervisionDetails, chime5GetRecordingIdList,
    channel_list, pyContains, listContainsSub]

/-- **C2** (amended): in CHiME-6, a raw record whose computed
`end_time <= start_time` never produces a supervision segment; in CHiME-5 the
skip test is strict, so a record all of whose timestamp lookups satisfy
`end_time < start_time` never produces a segment, but `end_time = start_time`
does (see the counterexample). -/
theorem c2_nonpositive_duration_skip (part : String) (mics5 mics6 : List String)
    (n5 n6 : Nat) (x5 : Chime5Record) (x6 : Chime6Record)
    (h5 : ∀ mt st et, x5.start_time.lookup mt = some st →
      x5.end_time.lookup mt = some et → hms_to_seconds et < hms_to_seconds st)
    (h6 : hms_to_seconds x6.end_time ≤ hms_to_seconds x6.start_time) :
    (chime5ProcessRecord x5 mics5 n5).1 = [] ∧
    (chime6ProcessRecord part x6 mics6 n6).1 = [] := by
  constructor
  · induction mics5 generalizing n5 with
    | nil => rfl
    | cons m ms ih =>
      by_cases hr : pyContains x5.words "[redacted]" = true <;>
        simp [chime5ProcessRecord, chime5ProcessMic, hr,
          chime5EmitForIds_nil_of_lt x5 _ _ _ (h5 _), ih]
  · induction mics6 generalizing n6 with
    | nil => rfl
    | cons m ms ih =>
      by_cases hr : pyContains x6.words "[redacted]" = true <;>
        simp [chime6ProcessRecord, chime6ProcessMic, hr,
          chime6EmitForIds_nil_of_le part x6 h6, ih]

/-- Witness for the amended C2 at concrete records: a CHiME-5 record with
`end < start` for its only microphone type and a CHiME-6 record with
`end_time = start_time`. -/
theorem c2_nonpositive_duration_skip_witness :
    (hms_to_seconds ⟨0, 0, 3⟩ < hms_to_seconds ⟨0, 0, 7⟩) ∧
    (chime5ProcessRecord
        ⟨"S02", "P05", "", "", [("original", ⟨0, 0, 7⟩)], [("original", ⟨0, 0, 3⟩)]⟩
        chime5MicrophonetypeList 0).1 = [] ∧
    (chime6ProcessRecord "dev"
        ⟨"S03", "P09", "", "", ⟨0, 0, 4⟩, ⟨0, 0, 4⟩⟩
        (chime6GetMicrophonetypeList "dev") 0).1 = [] :=
  have H := c2_nonpositive_duration_skip "dev" chime5MicrophonetypeList
    (chime6GetMicrophonetypeList "dev") 0 0
    ⟨"S02", "P05", "", "", [("original", ⟨0, 0, 7⟩)], [("original", ⟨0, 0, 3⟩)]⟩
    ⟨"S03", "P09", "", "", ⟨0, 0, 4⟩, ⟨0, 0, 4⟩⟩
    (by
      intro mt st et hst het
      by_cases hmt : mt = "original"
      · subst hmt
        simp at hst het
        rw [← hst, ← het]
        norm_num [hms_to_seconds]
      · have hb : (mt == "original") = false := by simp [hmt]
        simp [List.lookup, hb] at hst)
    (le_refl _)
  ⟨by norm_num [hms_to_seconds], H.1, H.2⟩

/-- Counterexample to **C8** as stated: in CHiME-6, the far-field microphone
type `U01` for session `S12` resolves to no candidate recording ids at all
(not to the four per-channel ids), and likewise `U03` for session `S01`
(which is listed in `Session2Microphones` without `U03`). -/
theorem c8_counterexample :
    chime6GetRecordingIdList "U01" "S12" "P01" = [] ∧
    chime6GetRecordingIdList "U03" "S01" "P01" = [] ∧
    ("S12_U01.CH1" :: ["S12_U01.CH2", "S12_U01.CH3", "S12_U01.CH4"]) ≠ [] := by
  refine ⟨rfl, by decide, by decide⟩

/-- **C8** (amended): the CHiME-5 resolver produces exactly the four channel
ids `<session>_<mictype>.CH1` … `.CH4` for every microphone type other than
`original`, and exactly the single id `<session>_<speaker>` for `original`.
The CHiME-6 resolver does the same except that session `S12` always resolves
to no ids, and a session listed in `Session2Microphones` resolves a
non-`original` microphone type to the four channel ids only when that type
is in its list (and to no ids otherwise). -/
theorem c8_recording_id_fanout (mictype session_id speaker_id : String) :
    (mictype ≠ "original" →
      chime5GetRecordingIdList mictype session_id speaker_id =
        [session_id ++ "_" ++ mictype ++ "." ++ "CH1",
         session_id ++ "_" ++ mictype ++ "." ++ "CH2",
         session_id ++ "_" ++ mictype ++ "." ++ "CH3",
         session_id ++ "_" ++ mictype ++ "." ++ "CH4"]) ∧
    (chime5GetRecordingIdList "original" session_id speaker_id =
      [session_id ++ "_" ++ speaker_id]) ∧
    (session_id = "S12" →
      chime6GetRecordingIdList mictype session_id speaker_id = []) ∧
    (session_id ≠ "S12" →
      chime6GetRecordingIdList "original" session_id speaker_id =
        [session_id ++ "_" ++ speaker_id]) ∧
    (session_id ≠ "S12" → mictype ≠ "original" →
      Session2Microphones.lookup session_id = none →
      chime6GetRecordingIdList mictype session_id speaker_id =
        [session_id ++ "_" ++ mictype ++ "." ++ "CH1",
         session_id ++ "_" ++ mictype ++ "." ++ "CH2",
         session_id ++ "_" ++ mictype ++ "." ++ "CH3",
         session_id ++ "_" ++ mictype ++ "." ++ "CH4"]) ∧
    (∀ mics, session_id ≠ "S12" → mictype ≠ "original" →
      Session2Microphones.lookup session_id = some mics →
      chime6GetRecordingIdList mictype session_id speaker_id =
        (if mictype ∈ mics then
          [session_id ++ "_" ++ mictype ++ "." ++ "CH1",
           session_id ++ "_" ++ mictype ++ "." ++ "CH2",
           session_id ++ "_" ++ mictype ++ "." ++ "CH3",
           session_id ++ "_" ++ mictype ++ "." ++ "CH4"]
         else [])) := by
  refine ⟨?_, ?_, ?_, ?_, ?_, ?_⟩
  · intro hmt
    simp [chime5GetRecordingIdList, hmt, channel_list]
  · simp [chime5GetRecordingIdList]
  · intro hs
    simp [chime6GetRecordingIdList, hs]
  · intro hs
    simp [chime6GetRecordingIdList, hs]
  · intro hs hmt hl
    simp [chime6GetRecordingIdList, hs, hmt, hl, channel_list]
  · intro mics hs hmt hl
    by_cases hmem : mictype ∈ mics <;>
      simp [chime6GetRecordingIdList, hs, hmt, hl, hmem, channel_list]

/-- Witness for the amended C8 at concrete inputs covering both the unlisted
session (`S04`) and the listed session (`S01`) cases. -/
theorem c8_recording_id_fanout_witness :
    (chime5GetRecordingIdList "U01" "S04" "P07" =
      ["S04_U01.CH1", "S04_U01.CH2", "S04_U01.CH3", "S04_U01.CH4"]) ∧
    (chime5GetRecordingIdList "original" "S04" "P07" = ["S04_P07"]) ∧
    (chime6GetRecordingIdList "original" "S04" "P07" = ["S04_P07"]) ∧
    (chime6GetRecordingIdList "U01" "S04" "P07" =
      ["S04_U01.CH1", "S04_U01.CH2", "S04_U01.CH3", "S04_U01.CH4"]) ∧
    (chime6GetRecordingIdList "U01" "S01" "P07" =
      ["S01_U01.CH1", "S01_U01.CH2", "S01_U01.CH3", "S01_U01.CH4"]) ∧
    (chime6GetRecordingIdList "U01" "S12" "P07" = []) :=
  have H4 := c8_recording_id_fanout "U01" "S04" "P07"
  have H1 := c8_recording_id_fanout "U01" "S01" "P07"
  have H12 := c8_recording_id_fanout "U01" "S12" "P07"
  ⟨by rw [H4.1 (by decide)]; decide,
   by rw [H4.2.1]; decide,
   by rw [H4.2.2.2.1 (by decide)]; decide,
   by rw [H4.2.2.2.2.1 (by decide) (by decide) (by decide)]; decide,
   by rw [H1.2.2.2.2.2 ["U01", "U02", "U04", "U05", "U06"] (by decide) (by decide) (by decide)]; decide,
   H12.2.2.1 rfl⟩

/-- Counterexample to **C1** as stated: the SAFE-T pipeline constructs a
supervision segment with negative duration from the line
`(start=0, end=0.05, speaker "001:", text "hello")` in the `dev` part
(`duration = 0.05 - 0 - 0.1 < 0`); no recipe-level check prevents it. -/
theorem c1_counterexample :
    ∃ seg, (safetProcessLine "dev" [] 0 "r1" ⟨0, 1/20, "001:", ["hello"]⟩).1 = some seg ∧
      ¬ (0 < seg.duration) := by
  refine ⟨_, rfl, ?_⟩
  norm_num

/-- Helper for C1: any segment kept by `ami.py`'s per-annotation reconciler
carries the annotation's begin time and span, with the overrun and
positivity guards established. -/
theorem amiProcessAnn_inv (recording : Recording) (seg_idx : Nat) (a : AmiSegAnnot)
    (seg : SupervisionSegment) (hsome : amiProcessAnn recording seg_idx a = some seg) :
    seg.start = a.begin_time ∧ seg.duration = a.end_time - a.begin_time ∧
    a.end_time ≤ recording.duration ∧ 0 < a.end_time - a.begin_time := by
  unfold amiProcessAnn at hsome
  by_cases h1 : a.end_time > recording.duration
  · simp [h1] at hsome
  · by_cases h2 : a.end_time - a.begin_time > 0
    · rw [if_neg h1, if_pos h2] at hsome
      injection hsome with hseg
      rw [← hseg]
      exact ⟨rfl, rfl, not_lt.mp h1, h2⟩
    · rw [if_neg h1, if_neg h2] at hsome
      exact absurd hsome (by simp)

/-- Helper for C1: the same for `ami2.py`'s per-annotation reconciler, whose
skip/keep conditions are identical (only the id format differs). -/
theorem ami2ProcessAnn_inv (recording : Recording) (sessionid : String)
    (channel seg_idx : Nat) (a : AmiSegAnnot) (seg : SupervisionSegment)
    (hsome : ami2ProcessAnn recording sessionid channel seg_idx a = some seg) :
    seg.start = a.begin_time ∧ seg.duration = a.end_time - a.begin_time ∧
    a.end_time ≤ recording.duration ∧ 0 < a.end_time - a.begin_time := by
  unfold ami2ProcessAnn at hsome
  by_cases h1 : a.end_time > recording.duration
  · simp [h1] at hsome
  · by_cases h2 : a.end_time - a.begin_time > 0
    · rw [if_neg h1, if_pos h2] at hsome
      injection hsome with hseg
      rw [← hseg]
      exact ⟨rfl, rfl, not_lt.mp h1, h2⟩
    · rw [if_neg h1, if_neg h2] at hsome
      exact absurd hsome (by simp)

/-- **C1** (amended): both AMI reconcilers (`ami.prepare_ami` and
`ami2.prepare_ami`) establish the claimed segment invariants: every segment
they construct has positive duration and
`start + duration <= recording.duration`, and has non-negative start whenever
the raw annotation begin times are non-negative.  (The SAFE-T recipe does not
enforce these bounds at construction; see the counterexample, which builds a
segment of negative duration.) -/
theorem c1_ami_segment_invariants (recording : Recording) (sessionid : String)
    (channel : Nat) (anns : List AmiSegAnnot)
    (hnn : ∀ a ∈ anns, 0 ≤ a.begin_time) :
    (∀ seg ∈ amiSegmentsForRecording recording anns,
      0 ≤ seg.start ∧ 0 < seg.duration ∧
        seg.start + seg.duration ≤ recording.duration) ∧
    (∀ seg ∈ ami2SegmentsForRecording recording sessionid channel anns,
      0 ≤ seg.start ∧ 0 < seg.duration ∧
        seg.start + seg.duration ≤ recording.duration) := by
  constructor
  · intro seg hmem
    unfold amiSegmentsForRecording at hmem
    rw [List.mem_filterMap] at hmem
    obtain ⟨⟨i, a⟩, hia, hsome⟩ := hmem
    have ha : a ∈ anns := by
      rw [List.mem_enum_iff_getElem?] at hia
      exact List.getElem?_mem hia
    obtain ⟨hs, hd, he, hpos⟩ := amiProcessAnn_inv recording i a seg hsome
    refine ⟨hs ▸ hnn a ha, hd ▸ hpos, ?_⟩
    rw [hs, hd]
    linarith
  · intro seg hmem
    unfold ami2SegmentsForRecording at hmem
    rw [List.mem_filterMap] at hmem
    obtain ⟨⟨i, a⟩, hia, hsome⟩ := hmem
    have ha : a ∈ anns := by
      rw [List.mem_enum_iff_getElem?] at hia
      exact List.getElem?_mem hia
    obtain ⟨hs, hd, he, hpos⟩ := ami2ProcessAnn_inv recording sessionid channel i a seg hsome
    refine ⟨hs ▸ hnn a ha, hd ▸ hpos, ?_⟩
    rw [hs, hd]
    linarith

/-- Witness for the amended C1 at a concrete AMI recording and annotation
(both reconcilers). -/
theorem c1_ami_segment_invariants_witness :
    (∀ a ∈ [(⟨"hi", "A", "f", 1, 3⟩ : AmiSegAnnot)], 0 ≤ a.begin_time) ∧
    (∀ seg ∈ amiSegmentsForRecording ⟨"EN2001a.Headset-0", 100⟩ [⟨"hi", "A", "f", 1, 3⟩],
      0 ≤ seg.start ∧ 0 < seg.duration ∧ seg.start + seg.duration ≤ (100 : ℚ)) ∧
    (∀ seg ∈ ami2SegmentsForRecording ⟨"EN2001a.Headset-0", 100⟩ "EN2001a" 0
        [⟨"hi", "A", "f", 1, 3⟩],
      0 ≤ seg.start ∧ 0 < seg.duration ∧ seg.start + seg.duration ≤ (100 : ℚ)) := by
  have hnn : ∀ a ∈ [(⟨"hi", "A", "f", 1, 3⟩ : AmiSegAnnot)], 0 ≤ a.begin_time := by
    intro a hmem'
    simp at hmem'
    rw [hmem']
    norm_num
  have H := c1_ami_segment_invariants ⟨"EN2001a.Headset-0", 100⟩ "EN2001a" 0
    [⟨"hi", "A", "f", 1, 3⟩] hnn
  exact ⟨hnn, H.1, H.2⟩

/-- Helper: membership in the per-partition recording filter of
`ami.prepare_ami`. -/
theorem mem_amiFilterRecordings (plist : List String) (recs : List Recording)
    (r : Recording) :
    r ∈ amiFilterRecordings plist recs ↔ r ∈ recs ∧ pyIdPart r.id ∈ plist := by
  unfold amiFilterRecordings
  rw [List.mem_filter]
  simp

/-- Helper: no meeting id of `ami.py`'s train list occurs in its dev list. -/
theorem amiTrainDevDisjoint : ∀ m ∈ amiTrainList, m ∉ amiDevList := by decide

/-- Helper: no meeting id of `ami.py`'s train list occurs in its test list. -/
theorem amiTrainTestDisjoint : ∀ m ∈ amiTrainList, m ∉ amiTestList := by decide

/-- Helper: no meeting id of `ami.py`'s dev list occurs in its test list. -/
theorem amiDevTestDisjoint : ∀ m ∈ amiDevList, m ∉ amiTestList := by decide

/-- **C4**: the `full-corpus-asr` splits are a disjoint cover: no meeting id
occurs in two of the three split lists, for `ami.py`'s literal `PARTITIONS`
and for `ami2.py`'s `MEETINGS`-derived ones, and every discovered recording
whose id prefix belongs to the scheme lands in exactly one split's filtered
recording collection. -/
theorem c4_partition_disjoint_cover (recs : List Recording) (r : Recording)
    (hr : r ∈ recs)
    (hscheme : pyIdPart r.id ∈ amiTrainList ++ amiDevList ++ amiTestList) :
    (∀ m ∈ amiTrainList, m ∉ amiDevList ∧ m ∉ amiTestList) ∧
    (∀ m ∈ amiDevList, m ∉ amiTestList) ∧
    (∀ m ∈ ami2PartList "train", m ∉ ami2PartList "dev" ∧ m ∉ ami2PartList "test") ∧
    (∀ m ∈ ami2PartList "dev", m ∉ ami2PartList "test") ∧
    (∃! part, part ∈ ["train", "dev", "test"] ∧
      r ∈ amiFilterRecordings (amiPartList part) recs) := by
  refine ⟨fun m hm => ⟨amiTrainDevDisjoint m hm, amiTrainTestDisjoint m hm⟩,
    amiDevTestDisjoint, by decide, by decide, ?_⟩
  have hp : ∀ p : String, amiPartList p =
      (if p = "train" then amiTrainList
       else if p = "dev" then amiDevList
       else if p = "test" then amiTestList else []) := fun _ => rfl
  rcases List.mem_append.mp hscheme with hmd | hm
  · rcases List.mem_append.mp hmd with hm | hm
    · refine ⟨"train", ⟨by decide, ?_⟩, ?_⟩
      · exact (mem_amiFilterRecordings _ _ _).mpr ⟨hr, by rw [hp]; simpa using hm⟩
      · intro y ⟨hy, hmem⟩
        have hy' := (mem_amiFilterRecordings _ _ _).mp hmem
        fin_cases hy
        · rfl
        · exact absurd (by simpa [hp] using hy'.2) (amiTrainDevDisjoint _ hm)
        · exact absurd (by simpa [hp] using hy'.2) (amiTrainTestDisjoint _ hm)
    · refine ⟨"dev", ⟨by decide, ?_⟩, ?_⟩
      · exact (mem_amiFilterRecordings _ _ _).mpr ⟨hr, by rw [hp]; simpa using hm⟩
      · intro y ⟨hy, hmem⟩
        have hy' := (mem_amiFilterRecordings _ _ _).mp hmem
        fin_cases hy
        · exact absurd hm (amiTrainDevDisjoint _ (by simpa [hp] using hy'.2))
        · rfl
        · exact absurd (by simpa [hp] using hy'.2) (amiDevTestDisjoint _ hm)
  · refine ⟨"test", ⟨by decide, ?_⟩, ?_⟩
    · exact (mem_amiFilterRecordings _ _ _).mpr ⟨hr, by rw [hp]; simpa using hm⟩
    · intro y ⟨hy, hmem⟩
      have hy' := (mem_amiFilterRecordings _ _ _).mp hmem
      fin_cases hy
      · exact absurd hm (amiTrainTestDisjoint _ (by simpa [hp] using hy'.2))
      · exact absurd hm (amiDevTestDisjoint _ (by simpa [hp] using hy'.2))
      · rfl

/-- Witness for C4 at a concrete discovered recording whose meeting id
`ES2011a` belongs to the dev split. -/
theorem c4_partition_disjoint_cover_witness :
    ((⟨"ES2011a.Array1-01", 30⟩ : Recording) ∈
      [(⟨"ES2011a.Array1-01", 30⟩ : Recording)]) ∧
    (pyIdPart "ES2011a.Array1-01" ∈ amiTrainList ++ amiDevList ++ amiTestList) ∧
    (∃! part, part ∈ ["train", "dev", "test"] ∧
      (⟨"ES2011a.Array1-01", 30⟩ : Recording) ∈
        amiFilterRecordings (amiPartList part) [⟨"ES2011a.Array1-01", 30⟩]) :=
  ⟨by decide, by decide,
    (c4_partition_disjoint_cover [⟨"ES2011a.Array1-01", 30⟩] ⟨"ES2011a.Array1-01", 30⟩
      (by decide) (by decide)).2.2.2.2⟩

/-- Counterexample to **C5** as stated: in `ami.prepare_ami` the per-partition
manifest writes happen before the per-partition validation call, so a
partition whose validation fails still has both of its files written. -/
theorem c5_counterexample :
    ManifestEvent.write "recordings_train.json" ∈ amiPartitionTrace "train" false true ∧
    ManifestEvent.write "supervisions_train.json" ∈ amiPartitionTrace "train" false true ∧
    ManifestEvent.validate true ∉ amiPartitionTrace "train" false true := by
  decide

/-- **C5** (amended): in the SAFE-T and CHiME-5 recipes a partition that fails
validation has neither manifest file written (validation precedes the writes
and raises on failure); in `ami.prepare_ami` both files are written before the
per-partition validation runs, so even a failing partition gets both files;
and `ru_open_stt.prepare_ru_open_stt` writes both files with no validation
event at all (the call is commented out). -/
theorem c5_write_validate_order (part : String) (hasOutputDir : Bool) :
    ((safetPartitionTrace part false hasOutputDir).filter ManifestEvent.isWrite = []) ∧
    ((chime5PartitionTrace part false hasOutputDir).filter ManifestEvent.isWrite = []) ∧
    (∀ valOk, (amiPartitionTrace part valOk true).filter ManifestEvent.isWrite =
      [.write ("recordings_" ++ part ++ ".json"),
       .write ("supervisions_" ++ part ++ ".json")]) ∧
    (∀ valOk, ManifestEvent.validate valOk ∉ ruOpenSttPartitionTrace part hasOutputDir) := by
  cases hasOutputDir <;>
    simp [safetPartitionTrace, chime5PartitionTrace, amiPartitionTrace,
      ruOpenSttPartitionTrace, ManifestEvent.isWrite]

/-- Helper for C7: every word kept by the SAFE-T word loop is non-empty
(empty words are skipped before the lexicon test; the rest are either a
lexicon word or `UNK`). -/
theorem safetWordLoop_elems_ne_empty (wordlist : List String) :
    ∀ ws, ∀ w' ∈ (safetWordLoop wordlist ws).1, w' ≠ "" := by
  intro ws
  induction ws with
  | nil =>
    intro w' hw'
    simp [safetWordLoop] at hw'
  | cons w ws ih =>
    intro w' hw'
    rcases hws : safetWordLoop wordlist ws with ⟨rest, onlyUnk⟩
    rw [hws] at ih
    unfold safetWordLoop at hw'
    rw [hws] at hw'
    dsimp only at hw'
    by_cases h0 : case_normalize (pyStrip w) = ""
    · rw [if_pos h0] at hw'
      exact ih w' hw'
    · rw [if_neg h0] at hw'
      by_cases h1 : wordlist.contains (case_normalize (pyStrip w)) = true
      · rw [if_pos h1] at hw'
        rcases List.mem_cons.mp hw' with rfl | hw'
        · exact h0
        · exact ih w' hw'
      · rw [if_neg h1] at hw'
        rcases List.mem_cons.mp hw' with rfl | hw'
        · intro h
          exact absurd h (by unfold UNK; decide)
        · exact ih w' hw'

/-- Helper for C7: the `if_only_unk` flag of the SAFE-T word loop is true
exactly when no word of the list both survives normalization and belongs to
the word list. -/
theorem safetWordLoop_onlyUnk_iff (wordlist : List String) :
    ∀ ws, (safetWordLoop wordlist ws).2 = true ↔
      ∀ w ∈ ws, case_normalize (pyStrip w) = "" ∨
        wordlist.contains (case_normalize (pyStrip w)) = false := by
  intro ws
  induction ws with
  | nil => simp [safetWordLoop]
  | cons w ws ih =>
    rcases hws : safetWordLoop wordlist ws with ⟨rest, onlyUnk⟩
    rw [hws] at ih
    unfold safetWordLoop
    rw [hws]
    dsimp only
    by_cases h0 : case_normalize (pyStrip w) = ""
    · rw [if_pos h0]
      simp [h0, ih]
    · rw [if_neg h0]
      by_cases h1 : wordlist.contains (case_normalize (pyStrip w)) = true
      · have h1m : case_normalize (pyStrip w) ∈ wordlist := by simpa using h1
        rw [if_pos h1]
        simp [h0, h1m]
      · have h1' : wordlist.contains (case_normalize (pyStrip w)) = false := by
          simpa using h1
        have h1m : case_normalize (pyStrip w) ∉ wordlist := by simpa using h1'
        rw [if_neg h1]
        simp [h0, h1m, ih]

/-- Helper for C7: when some word survived (the flag is false), the output
word list is non-empty. -/
theorem safetWordLoop_ne_nil_of_not_onlyUnk (wordlist : List String) :
    ∀ ws, (safetWordLoop wordlist ws).2 = false → (safetWordLoop wordlist ws).1 ≠ [] := by
  intro ws
  induction ws with
  | nil => simp [safetWordLoop]
  | cons w ws ih =>
    rcases hws : safetWordLoop wordlist ws with ⟨rest, onlyUnk⟩
    rw [hws] at ih
    unfold safetWordLoop
    rw [hws]
    dsimp only
    by_cases h0 : case_normalize (pyStrip w) = ""
    · rw [if_pos h0]
      exact ih
    · rw [if_neg h0]
      by_cases h1 : wordlist.contains (case_normalize (pyStrip w)) = true
      · rw [if_pos h1]
        simp
      · rw [if_neg h1]
        simp

/-- Helper for C7: joining a word list whose head is non-empty with a space
separator yields a non-empty string. -/
theorem joinWords_ne_empty (w : String) (ws : List String) (hw : w ≠ "") :
    joinWords (w :: ws) ≠ "" := by
  cases ws with
  | nil => simpa [joinWords] using hw
  | cons x xs =>
    show w ++ " " ++ joinWords (x :: xs) ≠ ""
    intro h
    have hlen := congrArg String.length h
    rw [String.length_append, String.length_append] at hlen
    have h1 : (" " : String).length = 1 := rfl
    have h0 : ("" : String).length = 0 := rfl
    rw [h1, h0] at hlen
    omega

/-- **C7**: (i) a SAFE-T line whose cleaned transcript is the empty string is
dropped entirely (no segment is emitted from it); (ii) no emitted SAFE-T
segment ever has empty text; and (iii) `process_transcript` yields the empty
string exactly when every word of the substituted, whitespace-split
transcript either normalizes (strip + upper-case) to the empty string or is
out of the lexicon. -/
theorem c7_empty_normalization_drops (part : String) (wordlist : List String)
    (supervision_id : Nat) (recording_id : String) (t : String) :
    (∀ line : SafetLine, safetCleaned part wordlist line = "" →
      (safetProcessLine part wordlist supervision_id recording_id line).1 = none) ∧
    (∀ (line : SafetLine) (seg : SupervisionSegment),
      (safetProcessLine part wordlist supervision_id recording_id line).1 = some seg →
      seg.text ≠ "") ∧
    (process_transcript wordlist t = "" ↔
      ∀ w ∈ reSplitWs (safetSubs t), case_normalize (pyStrip w) = "" ∨
        wordlist.contains (case_normalize (pyStrip w)) = false) := by
  refine ⟨?_, ?_, ?_⟩
  · intro line hempty
    unfold safetProcessLine
    rw [if_pos hempty]
  · intro line seg hsome
    unfold safetProcessLine at hsome
    by_cases h1 : safetCleaned part wordlist line = ""
    · simp [h1] at hsome
    · by_cases h2 : pyStartsWith (pyDropRight line.spk_field 1) "background" = true
      · simp [h1, h2] at hsome
      · simp [h1, h2] at hsome
        rw [← hsome]
        exact h1
  · unfold process_transcript
    dsimp only
    rcases hlw : safetWordLoop wordlist (reSplitWs (safetSubs t)) with ⟨out, onlyUnk⟩
    dsimp only
    cases onlyUnk with
    | true =>
      rw [if_pos rfl]
      exact iff_of_true rfl
        ((safetWordLoop_onlyUnk_iff wordlist _).mp (by rw [hlw]))
    | false =>
      rw [if_neg (by simp)]
      have hne : out ≠ [] := by
        have := safetWordLoop_ne_nil_of_not_onlyUnk wordlist
          (reSplitWs (safetSubs t)) (by rw [hlw])
        rwa [hlw] at this
      obtain ⟨w0, out', rfl⟩ := List.exists_cons_of_ne_nil hne
      have hw0 : w0 ≠ "" := by
        refine safetWordLoop_elems_ne_empty wordlist (reSplitWs (safetSubs t)) w0 ?_
        rw [hlw]
        exact List.mem_cons_self w0 out'
      constructor
      · intro h
        exact absurd h (joinWords_ne_empty w0 out' hw0)
      · intro h
        have := (safetWordLoop_onlyUnk_iff wordlist _).mpr h
        rw [hlw] at this
        simp at this

/-- Witness for C7: a line whose every word is out of the lexicon is dropped;
an emitted segment has non-empty text; `process_transcript` maps an
all-unknown transcript to the empty string. -/
theorem c7_empty_normalization_drops_witness :
    (safetCleaned "train" ["HELLO"] ⟨0, 1, "001:", ["zzz"]⟩ = "") ∧
    ((safetProcessLine "train" ["HELLO"] 0 "r1" ⟨0, 1, "001:", ["zzz"]⟩).1 = none) ∧
    ((safetProcessLine "dev" ["HELLO"] 0 "r1" ⟨0, 1, "042:", ["hi"]⟩).1 =
      some { id := "000042_000001", recording_id := "r1", start := 0,
             duration := (1 : ℚ) - 0 - 1/10, channel := 0, language := "English",
             speaker := "000042", text := "hi" }) ∧
    (({ id := "000042_000001", recording_id := "r1", start := 0,
        duration := (1 : ℚ) - 0 - 1/10, channel := 0, language := "English",
        speaker := "000042", text := "hi" } : SupervisionSegment).text ≠ "") ∧
    (process_transcript ["HELLO"] "bye bye" = "") :=
  have H1 := c7_empty_normalization_drops "train" ["HELLO"] 0 "r1" "bye bye"
  have H2 := c7_empty_normalization_drops "dev" ["HELLO"] 0 "r1" "bye bye"
  ⟨rfl, H1.1 ⟨0, 1, "001:", ["zzz"]⟩ rfl, rfl,
   H2.2.1 ⟨0, 1, "042:", ["hi"]⟩ _ rfl,
   H1.2.2.mpr (by decide)⟩

end Lhotse
